import Mathlib

/-!
Shallow embedding of the request-construction and response-dispatch
pipeline of the biblia-api client (`src/lib/client.ts`): the option
validator framework, the URL template renderer, the content-type driven
response transformer and the endpoint factory, together with proofs of
the specified properties.

JavaScript objects are modelled as insertion-ordered association lists of
own enumerable string-keyed properties; JavaScript runtime values that the
pipeline can observe are modelled by `JsValue`.  Thrown JavaScript errors
are modelled with `Except String`, carrying the error message.
-/

set_option autoImplicit false

namespace BibliaApi

/-- Model of the JavaScript runtime values that flow through the option
pipeline: strings, numbers (the endpoints only ever use integral values),
booleans, `null`, and `undefined`. -/
inductive JsValue where
  | str (s : String)
  | num (n : Int)
  | bool (b : Bool)
  | null
  | undefined
deriving DecidableEq, Repr

/-- `typeof` on a modelled JavaScript value. -/
def typeofJs : JsValue → String
  | .str _ => "string"
  | .num _ => "number"
  | .bool _ => "boolean"
  | .null => "object"
  | .undefined => "undefined"

/-- A JavaScript object in insertion order: the domain of `Object.entries`
and of `for (const key in ...)` for the objects this library handles. -/
abbrev OptionsObj := List (String × JsValue)

/-- First binding of a key in an association list (JavaScript object keys
are unique, so this is plain property lookup). -/
def lookupKey {α : Type} : List (String × α) → String → Option α
  | [], _ => none
  | p :: rest, k => if p.1 = k then some p.2 else lookupKey rest k

/-- Property access `options[key]`: `undefined` when the key is absent. -/
def jsGet (o : OptionsObj) (k : String) : JsValue :=
  (lookupKey o k).getD JsValue.undefined

/-- `String.prototype.toLowerCase` restricted to the ASCII range used by
every identifier in the client. -/
def toLowerStr (s : String) : String :=
  String.mk (s.toList.map Char.toLower)

/-- The own property names of `Object.prototype`.  A plain object built by
`Object.assign({}, ...)` inherits them, and each resolves to a truthy
value (a function, or the prototype object itself through the
`__proto__` accessor). -/
def objectPrototypeKeys : List String :=
  ["constructor", "hasOwnProperty", "isPrototypeOf", "propertyIsEnumerable",
   "toLocaleString", "toString", "valueOf", "__defineGetter__",
   "__defineSetter__", "__lookupGetter__", "__lookupSetter__", "__proto__"]

/-- Truthiness of `hash[key]` for a plain object whose own values are all
truthy (the `namesHash`, `valuesHash` and `validateFunctions` objects of
the client): an own key hits, and otherwise the lookup falls through to
the inherited, truthy `Object.prototype` properties. -/
def jsHashHit (ownKeys : List String) (k : String) : Bool :=
  ownKeys.contains k || objectPrototypeKeys.contains k

/-- A per-field rule factory: given the option name it yields the check run
against the raw value (`Validator` in `client.ts`), failing by throwing. -/
abbrev RuleFactory := String → JsValue → Except String Unit

/-- A validation schema: option name to rule factory, in declaration order
(the argument of `createOptionsValidator`). -/
abbrev Schema := List (String × RuleFactory)

/-- `allowOptional`'s `.optional` variant: succeed immediately on
`undefined`, otherwise delegate to the required rule. -/
def optionalRule (fn : RuleFactory) : RuleFactory := fun optionName value =>
  if value = JsValue.undefined then Except.ok () else fn optionName value

/-- `validateIsString`: require `typeof value === 'string'`. -/
def validateIsString : RuleFactory := fun optionName value =>
  if typeofJs value ≠ "string" then
    Except.error ("Option " ++ optionName ++ " must be a string.")
  else Except.ok ()

/-- `validateIsBoolean`: require `typeof value === 'boolean'`. -/
def validateIsBoolean : RuleFactory := fun optionName value =>
  if typeofJs value ≠ "boolean" then
    Except.error ("Option " ++ optionName ++ " must be a boolean.")
  else Except.ok ()

/-- `validateIsNumber`: require `typeof value === 'number'`. -/
def validateIsNumber : RuleFactory := fun optionName value =>
  if typeofJs value ≠ "number" then
    Except.error ("Option " ++ optionName ++ " must be a number.")
  else Except.ok ()

/-- The message an enum rule throws: the allowed values joined verbatim, in
declaration order, by `', '`. -/
def enumErrorMessage (optionName : String) (values : List String) : String :=
  "Option " ++ optionName ++ " must be one of " ++
    String.intercalate ", " values ++ "."

/-- `validateEnumMembership(...values)`: a value passes when it is a string
whose lower-cased form makes `valuesHash[value.toLowerCase()]` truthy —
an own key of the hash built from the lower-cased allowed values, or an
inherited `Object.prototype` property name; anything else throws the
enum message. -/
def validateEnumMembership (values : List String) : RuleFactory :=
  fun optionName value =>
    match value with
    | JsValue.str s =>
      if jsHashHit (values.map toLowerStr) (toLowerStr s) then Except.ok ()
      else Except.error (enumErrorMessage optionName values)
    | _ => Except.error (enumErrorMessage optionName values)

/-- The `validateFunctions` object of `createOptionsValidator`: each rule
factory applied to its own option name, keys kept in declaration order. -/
def mkValidateFunctions (validators : Schema) :
    List (String × (JsValue → Except String Unit)) :=
  validators.map fun p => (p.1, p.2 p.1)

/-- The `for (const key in options)` loop: the first key of the options
object for which `validateFunctions[key]` is falsy throws the
unsupported-key error.  The lookup is on a plain object, so a key that
names an inherited `Object.prototype` property is truthy and slips
through even though it has no validate function. -/
def checkSupportedKeys (vfs : List (String × (JsValue → Except String Unit))) :
    OptionsObj → Except String Unit
  | [] => Except.ok ()
  | p :: rest =>
    if jsHashHit (vfs.map Prod.fst) p.1 then checkSupportedKeys vfs rest
    else Except.error ("Option " ++ p.1 ++ " is not supported.")

/-- The second loop of `validate`: every declared rule runs against the
(possibly absent) value of its option, in declaration order, first throw
wins. -/
def runRules (o : OptionsObj) :
    List (String × (JsValue → Except String Unit)) → Except String Unit
  | [] => Except.ok ()
  | p :: rest =>
    match p.2 (jsGet o p.1) with
    | Except.error e => Except.error e
    | Except.ok _ => runRules o rest

/-- `createOptionsValidator(validators)`: reject a missing options object,
then reject unsupported keys, then run the declared rules. -/
def createOptionsValidator (validators : Schema)
    (options : Option OptionsObj) : Except String Unit :=
  let validateFunctions := mkValidateFunctions validators
  match options with
  | none => Except.error "Options is required."
  | some o =>
    match checkSupportedKeys validateFunctions o with
    | Except.error e => Except.error e
    | Except.ok _ => runRules o validateFunctions

/-- The fixed service base address. -/
def baseUrl : String := "https://api.biblia.com/v1/"

/-- ECMA-262 `uriUnescaped`: the characters `encodeURIComponent` leaves
unchanged (ASCII letters, digits, and `- _ . ! ~ *` plus the apostrophe
and both parentheses). -/
def isUriUnescapedChar (c : Char) : Bool :=
  c.isAlpha || c.isDigit ||
    ['-', '_', '.', '!', '~', '*', Char.ofNat 39, '(', ')'].contains c

/-- Upper-case hexadecimal digit of a value below 16. -/
def hexDigit (n : Nat) : Char :=
  if n < 10 then Char.ofNat (48 + n) else Char.ofNat (55 + n)

/-- `%XX` escape of one octet. -/
def percentByte (n : Nat) : String :=
  String.mk ['%', hexDigit (n / 16 % 16), hexDigit (n % 16)]

/-- UTF-8 octets of a Unicode scalar value. -/
def utf8Bytes (n : Nat) : List Nat :=
  if n < 0x80 then [n]
  else if n < 0x800 then [0xC0 + n / 0x40, 0x80 + n % 0x40]
  else if n < 0x10000 then
    [0xE0 + n / 0x1000, 0x80 + n / 0x40 % 0x40, 0x80 + n % 0x40]
  else
    [0xF0 + n / 0x40000, 0x80 + n / 0x1000 % 0x40, 0x80 + n / 0x40 % 0x40,
      0x80 + n % 0x40]

/-- `encodeURIComponent` on a single character: unescaped characters pass
through, every other character becomes the `%XX` escapes of its UTF-8
octets. -/
def encodeChar (c : Char) : String :=
  if isUriUnescapedChar c then String.singleton c
  else String.join ((utf8Bytes c.toNat).map percentByte)

/-- ECMAScript `encodeURIComponent`, the escaping the renderer applies to
every substituted path value, query key and query value. -/
def encodeURIComponent (s : String) : String :=
  String.join (s.toList.map encodeChar)

/-- JavaScript `ToString` on the values a query entry can hold (template
interpolation and `encodeURIComponent` both coerce through it). -/
def jsToString : JsValue → String
  | .str s => s
  | .num n => toString n
  | .bool b => if b then "true" else "false"
  | .null => "null"
  | .undefined => "undefined"

/-- The `names.map(...)` path builder of `renderUrl`: for each placeholder
in order, throw if its option is `undefined`, otherwise emit the
percent-encoded value followed by the next literal fragment. -/
def renderPath (options : OptionsObj) : List String → List String → Except String String
  | [], _ => Except.ok ""
  | name :: names, parts =>
    let value := jsGet options name
    if value = JsValue.undefined then
      Except.error ("Parameter " ++ name ++ " is required.")
    else
      match renderPath options names parts.tail with
      | Except.error e => Except.error e
      | Except.ok rest =>
        Except.ok (encodeURIComponent (jsToString value) ++ parts.headD "" ++ rest)

/-- The query-string builder of `renderUrl`: the entries of the options
object, in insertion order, for which `!namesHash[key]` holds and the
value is not `undefined`, plus `key=<apiKey>` appended last, each side
percent-encoded.  `namesHash` is a plain object, so an option keyed by
an `Object.prototype` property name is dropped along with the path
placeholders. -/
def renderQuery (names : List String) (apiKey : String) (options : OptionsObj) : String :=
  let entries := options.filter fun p =>
    !(jsHashHit names p.1) && !(p.2 = JsValue.undefined)
  String.intercalate "&"
    ((entries ++ [("key", JsValue.str apiKey)]).map fun p =>
      encodeURIComponent p.1 ++ "=" ++ encodeURIComponent (jsToString p.2))

/-- `renderUrl` from `createUrlTemplate`: the base address and first
literal fragment, the substituted path, `?`, and the query string. -/
def renderUrl (urlParts names : List String) (apiKey : String)
    (options : OptionsObj) : Except String String :=
  match renderPath options names urlParts.tail with
  | Except.error e => Except.error e
  | Except.ok path =>
    Except.ok (baseUrl ++ urlParts.headD "" ++ path ++ "?" ++
      renderQuery names apiKey options)

/-- `renderUrl` lifted to a possibly-null options argument.  A `null` or
`undefined` options object would raise a `TypeError` inside the
JavaScript `renderUrl`; the validator rejects such a call first, so the
branch is unreachable in a composed endpoint. -/
def renderUrlOpt (urlParts names : List String) (apiKey : String) :
    Option OptionsObj → Except String String
  | none => Except.error "TypeError: Cannot convert undefined or null to object"
  | some o => renderUrl urlParts names apiKey o

/-- The fixed closed set of bible version codes. -/
def availableBibles : List String :=
  ["asv", "arvandyke", "kjv", "lsg", "byz", "darby", "elzevir",
   "itdiodati1649", "emphbbl", "kjv1900", "kjvapoc", "leb", "scrmorph",
   "fi-raamattu", "rvr60", "rva", "bb-sbb-rusbt", "eo-zamenbib", "tr1881",
   "tr1894mr", "svv", "stephens", "tanakh", "wbtc-ptbrnt", "wh1881mr",
   "ylt"]

/-- `bibleVersionValidator`: enum membership over the version codes. -/
def bibleVersionValidator : RuleFactory :=
  validateEnumMembership availableBibles

/-- Schema of the `content` endpoint. -/
def bibleContentSchema : Schema :=
  [("bible", bibleVersionValidator),
   ("passage", validateIsString),
   ("format", validateEnumMembership ["txt", "html", "txt", "html"]),
   ("style", optionalRule (validateEnumMembership
      ["fullyFormatted", "oneVersePerLine", "oneVersePerLineFullReference",
       "quotation", "simpleParagraphs", "bibleTextOnly",
       "orationOneParagraph", "orationOneVersePerLine",
       "orationBibleParagraphs", "fullyFormattedWithFootnotes"])),
   ("formatting", optionalRule validateIsString),
   ("redLetter", optionalRule validateIsBoolean),
   ("footnotes", optionalRule validateIsBoolean),
   ("citation", optionalRule validateIsBoolean),
   ("paragraphs", optionalRule validateIsBoolean),
   ("fullText", optionalRule validateIsBoolean),
   ("header", optionalRule validateIsString),
   ("eachVerse", optionalRule validateIsString),
   ("footer", optionalRule validateIsString)]

/-- The shared paging option rules. -/
def pagingOptions : Schema :=
  [("start", optionalRule validateIsNumber),
   ("limit", optionalRule validateIsNumber)]

/-- Schema of the `search` endpoint. -/
def searchSchema : Schema :=
  [("bible", bibleVersionValidator),
   ("query", validateIsString),
   ("mode", optionalRule (validateEnumMembership ["verse", "fuzzy"])),
   ("passages", optionalRule validateIsString),
   ("preview", optionalRule (validateEnumMembership ["none", "text", "html"])),
   ("sort", optionalRule (validateEnumMembership ["relevance", "passage"]))]
  ++ pagingOptions

/-- Schema shared by `tableOfContents`, `findBible` and `image`. -/
def specificBibleSchema : Schema :=
  [("bible", bibleVersionValidator)]

/-- Schema of the `find` endpoint. -/
def findSchema : Schema :=
  [("query", optionalRule validateIsString),
   ("strictQuery", optionalRule validateIsBoolean)]
  ++ pagingOptions

/-- Schema of the `parse` endpoint. -/
def parseSchema : Schema :=
  [("passage", validateIsString),
   ("style", optionalRule (validateEnumMembership ["short", "medium", "long"]))]

/-- Schema of the `scan` endpoint. -/
def scanSchema : Schema :=
  [("text", validateIsString),
   ("tagChapters", optionalRule validateIsBoolean)]

/-- Schema of the `tag` endpoint. -/
def tagSchema : Schema :=
  [("text", optionalRule validateIsString),
   ("url", optionalRule validateIsString),
   ("tagFormat", optionalRule validateIsString),
   ("tagChapters", optionalRule validateIsBoolean)]

/-- Schema of the `compare` endpoint. -/
def compareSchema : Schema :=
  [("first", validateIsString),
   ("second", validateIsString)]

/-- `validateBibleContentOptions`. -/
def validateBibleContentOptions : Option OptionsObj → Except String Unit :=
  createOptionsValidator bibleContentSchema

/-- `validateSearchOptions`. -/
def validateSearchOptions : Option OptionsObj → Except String Unit :=
  createOptionsValidator searchSchema

/-- `validateSpecificBibleOptions`. -/
def validateSpecificBibleOptions : Option OptionsObj → Except String Unit :=
  createOptionsValidator specificBibleSchema

/-- `validateFindOptions`. -/
def validateFindOptions : Option OptionsObj → Except String Unit :=
  createOptionsValidator findSchema

/-- `validateParseOptions`. -/
def validateParseOptions : Option OptionsObj → Except String Unit :=
  createOptionsValidator parseSchema

/-- `validateScanOptions`. -/
def validateScanOptions : Option OptionsObj → Except String Unit :=
  createOptionsValidator scanSchema

/-- `validateTagOptions`. -/
def validateTagOptions : Option OptionsObj → Except String Unit :=
  createOptionsValidator tagSchema

/-- `validateCompareOptions`. -/
def validateCompareOptions : Option OptionsObj → Except String Unit :=
  createOptionsValidator compareSchema

/-- Literal fragments of the `content` template
`bible/content/${'bible'}.${'format'}`. -/
def contentUrlParts : List String := ["bible/content/", ".", ""]

/-- Placeholder names of the `content` template. -/
def contentNames : List String := ["bible", "format"]

/-- Literal fragments of the `tableOfContents` template. -/
def tableOfContentsUrlParts : List String := ["bible/contents/", ""]

/-- Placeholder names of the `tableOfContents` template. -/
def tableOfContentsNames : List String := ["bible"]

/-- Literal fragments of the `tag` template `bible/tag`. -/
def tagUrlParts : List String := ["bible/tag"]

/-- Placeholder names of the `tag` template (none). -/
def tagNames : List String := []

/-- The response envelope the library depends on: status, the
`Content-Type` header (`none` models a missing header), and the three
body decodings a fetch response offers. -/
structure Response (TBlob : Type) where
  status : Int
  contentTypeHeader : Option String
  jsonBody : JsValue
  textBody : String
  blobBody : TBlob

/-- The three body-decoding methods of a fetch response. -/
inductive DecodeMethod where
  | json
  | text
  | blob
deriving DecidableEq, Repr

/-- `response.headers.get('Content-Type') || ''` followed by
`.split(';', 2)[0]`: the media type before any parameter suffix. -/
def responseContentType {TBlob : Type} (r : Response TBlob) : String :=
  String.mk (((r.contentTypeHeader.getD "").toList).takeWhile fun c => c ≠ ';')

/-- `expectContentType`: throw, citing the observed media type, unless it
is one of the expected types. -/
def expectContentType {TBlob : Type} (r : Response TBlob)
    (expectedTypes : List String) : Except String Unit :=
  let contentType := responseContentType r
  if expectedTypes.contains contentType then Except.ok ()
  else Except.error ("Unexpected response Content-Type: " ++ contentType)

/-- `expectJsonResult`: check the content type, then await `json()` once.
The second component records which decoding methods were invoked, in
order. -/
def expectJsonResult {TBlob : Type} (r : Response TBlob) :
    Except String JsValue × List DecodeMethod :=
  match expectContentType r ["application/json"] with
  | Except.error e => (Except.error e, [])
  | Except.ok _ => (Except.ok r.jsonBody, [DecodeMethod.json])

/-- `expectTextResult`: check the content type, then await `text()` once. -/
def expectTextResult {TBlob : Type} (r : Response TBlob) :
    Except String String × List DecodeMethod :=
  match expectContentType r ["text/html", "text/plain"] with
  | Except.error e => (Except.error e, [])
  | Except.ok _ => (Except.ok r.textBody, [DecodeMethod.text])

/-- `expectImageResult`: check the content type, then await `blob()` once. -/
def expectImageResult {TBlob : Type} (r : Response TBlob) :
    Except String TBlob × List DecodeMethod :=
  match expectContentType r ["image/jpeg"] with
  | Except.error e => (Except.error e, [])
  | Except.ok _ => (Except.ok r.blobBody, [DecodeMethod.blob])

/-- What an endpoint call can throw: a JavaScript `Error` (validation,
template or content-type failure, carrying its message) or — on a
non-200 status — the raw response envelope itself. -/
inductive EndpointError (TBlob : Type) where
  | thrownMessage (msg : String)
  | thrownResponse (r : Response TBlob)

/-- Outcome of one endpoint call: the returned value or thrown error,
whether the injected fetch capability was invoked, and which
body-decoding methods were invoked. -/
structure EndpointOutcome (TBlob α : Type) where
  result : Except (EndpointError TBlob) α
  fetchInvoked : Bool
  decodeCalls : List DecodeMethod

/-- `createEndpoint`: validate, render the URL, fetch, reject a non-200
status by throwing the raw response, then transform the response.  The
injected fetch capability is modelled as a pure function from the URL to
the awaited response. -/
def createEndpoint {TBlob α : Type} (fetch : String → Response TBlob)
    (validateOptions : Option OptionsObj → Except String Unit)
    (renderUrlFn : Option OptionsObj → Except String String)
    (transformResponse : Response TBlob → Except String α × List DecodeMethod)
    (options : Option OptionsObj) : EndpointOutcome TBlob α :=
  match validateOptions options with
  | Except.error e => ⟨Except.error (EndpointError.thrownMessage e), false, []⟩
  | Except.ok _ =>
    match renderUrlFn options with
    | Except.error e => ⟨Except.error (EndpointError.thrownMessage e), false, []⟩
    | Except.ok url =>
      let response := fetch url
      if response.status ≠ 200 then
        ⟨Except.error (EndpointError.thrownResponse response), true, []⟩
      else
        match transformResponse response with
        | (Except.error e, calls) =>
          ⟨Except.error (EndpointError.thrownMessage e), true, calls⟩
        | (Except.ok v, calls) => ⟨Except.ok v, true, calls⟩

/-- The `tableOfContents` endpoint as composed by `createBibliaApiClient`. -/
def tableOfContentsEndpoint {TBlob : Type} (apiKey : String)
    (fetch : String → Response TBlob) (options : Option OptionsObj) :
    EndpointOutcome TBlob JsValue :=
  createEndpoint fetch validateSpecificBibleOptions
    (renderUrlOpt tableOfContentsUrlParts tableOfContentsNames apiKey)
    expectJsonResult options

/-- The `content` endpoint as composed by `createBibliaApiClient`. -/
def contentEndpoint {TBlob : Type} (apiKey : String)
    (fetch : String → Response TBlob) (options : Option OptionsObj) :
    EndpointOutcome TBlob String :=
  createEndpoint fetch validateBibleContentOptions
    (renderUrlOpt contentUrlParts contentNames apiKey)
    expectTextResult options

/-- Transcription of the specified path clause: for each placeholder in
order, the percent-encoded option value followed by the next literal
fragment, all concatenated. -/
def specRenderedPath (options : OptionsObj) : List String → List String → String
  | [], _ => ""
  | n :: ns, parts =>
    encodeURIComponent (jsToString (jsGet options n)) ++ parts.headD "" ++
      specRenderedPath options ns parts.tail

/-- Transcription of the amended query clause: every option key not
consumed as a path placeholder, not named like an `Object.prototype`
property, and not `undefined`, in insertion order, as
`percentEncode(key)=percentEncode(value)` joined with `&`, with the API
key appended as the final parameter. -/
def specQueryString (options : OptionsObj) (names : List String)
    (apiKey : String) : String :=
  String.intercalate "&"
    (((options.filter fun p =>
        !(names.contains p.1) && !(objectPrototypeKeys.contains p.1) &&
          !(p.2 = JsValue.undefined)) ++
      [("key", JsValue.str apiKey)]).map fun p =>
      encodeURIComponent p.1 ++ "=" ++ encodeURIComponent (jsToString p.2))

/-- The query builder of the source coincides with the amended query
clause. -/
theorem renderQuery_eq_spec (names : List String) (apiKey : String)
    (options : OptionsObj) :
    renderQuery names apiKey options = specQueryString options names apiKey := by
  unfold renderQuery specQueryString
  have hf : (options.filter fun p =>
        !(jsHashHit names p.1) && !(p.2 = JsValue.undefined))
      = options.filter fun p =>
        !(names.contains p.1) && !(objectPrototypeKeys.contains p.1) &&
          !(p.2 = JsValue.undefined) := by
    apply List.filter_congr
    intro p _
    simp [jsHashHit, Bool.not_or, Bool.and_assoc]
  rw [hf]

/-- When every placeholder option is present, the path builder returns the
specified concatenation. -/
theorem renderPath_eq_spec (options : OptionsObj) (names parts : List String)
    (h : ∀ n ∈ names, jsGet options n ≠ JsValue.undefined) :
    renderPath options names parts =
      Except.ok (specRenderedPath options names parts) := by
  induction names generalizing parts with
  | nil => rfl
  | cons n ns ih =>
    have hn : jsGet options n ≠ JsValue.undefined := h n (List.mem_cons_self n ns)
    have hns : ∀ m ∈ ns, jsGet options m ≠ JsValue.undefined :=
      fun m hm => h m (List.mem_cons_of_mem n hm)
    simp [renderPath, hn, ih parts.tail hns, specRenderedPath]

/-- The options object of the spec's `content` example. -/
def contentExampleOptions : OptionsObj :=
  [("bible", JsValue.str "leb"), ("passage", JsValue.str "Genesis 1:1"),
   ("format", JsValue.str "html"), ("style", JsValue.str "fullyFormatted")]

/-- Counterexample for C1 as stated: `toString` is not a placeholder of the
`tag` template and its value is not `undefined`, yet the rendered URL
omits `toString=y` — the placeholder hash inherits `Object.prototype`,
so such keys are silently dropped from the query. -/
theorem c1_counterexample :
    renderUrl tagUrlParts tagNames "baz"
        [("text", JsValue.str "x"), ("toString", JsValue.str "y")] =
      Except.ok "https://api.biblia.com/v1/bible/tag?text=x&key=baz" ∧
    tagNames.contains "toString" = false ∧
    jsGet [("text", JsValue.str "x"), ("toString", JsValue.str "y")]
        "toString" ≠ JsValue.undefined :=
  ⟨rfl, rfl, by decide⟩

/-- Claim C1 (amended): for validated options, `renderUrl` yields the fixed
base address plus the substituted path, `?`, and the query string
holding every non-placeholder, non-`undefined` option whose key is not
an `Object.prototype` property name, in insertion order with the API
key appended last (keys such as `toString` are silently dropped because
the placeholder hash inherits `Object.prototype`); concretely, the
`content` example renders
`https://api.biblia.com/v1/bible/content/leb.html?passage=Genesis%201%3A1&style=fullyFormatted&key=<apiKey>`
and `tableOfContents` with `{bible:'leb'}` and apiKey `baz` renders
`https://api.biblia.com/v1/bible/contents/leb?key=baz`. -/
theorem c1_renderUrl :
    (∀ (urlParts names : List String) (apiKey : String) (options : OptionsObj),
      (∀ n ∈ names, jsGet options n ≠ JsValue.undefined) →
      renderUrl urlParts names apiKey options =
        Except.ok (baseUrl ++ urlParts.headD "" ++
          specRenderedPath options names urlParts.tail ++ "?" ++
          specQueryString options names apiKey))
    ∧ validateBibleContentOptions (some contentExampleOptions) = Except.ok ()
    ∧ (∀ apiKey : String,
        renderUrl contentUrlParts contentNames apiKey contentExampleOptions =
          Except.ok
            ("https://api.biblia.com/v1/bible/content/leb.html?passage=Genesis%201%3A1&style=fullyFormatted&key="
              ++ encodeURIComponent apiKey))
    ∧ renderUrl contentUrlParts contentNames "baz" contentExampleOptions =
        Except.ok
          "https://api.biblia.com/v1/bible/content/leb.html?passage=Genesis%201%3A1&style=fullyFormatted&key=baz"
    ∧ renderUrl tableOfContentsUrlParts tableOfContentsNames "baz"
        [("bible", JsValue.str "leb")] =
      Except.ok "https://api.biblia.com/v1/bible/contents/leb?key=baz" := by
  refine ⟨?_, rfl, fun apiKey => rfl, rfl, rfl⟩
  intro urlParts names apiKey options h
  have hp := renderPath_eq_spec options names urlParts.tail h
  simp only [renderUrl, hp, renderQuery_eq_spec]

/-- Witness for C1: the general clause applied to the `tableOfContents`
example. -/
theorem c1_renderUrl_witness :
    renderUrl tableOfContentsUrlParts tableOfContentsNames "baz"
        [("bible", JsValue.str "leb")] =
      Except.ok (baseUrl ++ tableOfContentsUrlParts.headD "" ++
        specRenderedPath [("bible", JsValue.str "leb")] tableOfContentsNames
          tableOfContentsUrlParts.tail ++ "?" ++
        specQueryString [("bible", JsValue.str "leb")] tableOfContentsNames
          "baz") :=
  c1_renderUrl.1 tableOfContentsUrlParts tableOfContentsNames "baz"
    [("bible", JsValue.str "leb")] (by decide)

/-- Counterexample for C2 as stated: `constructor` has no validate function
in the `tableOfContents` schema, yet validation of
`{bible:'leb', constructor:'x'}` succeeds — `validateFunctions`
inherits `Object.prototype`, whose `constructor` property is truthy, so
the unsupported-key check never fires. -/
theorem c2_counterexample :
    (lookupKey (mkValidateFunctions specificBibleSchema)
      "constructor").isSome = false ∧
    createOptionsValidator specificBibleSchema
        (some [("bible", JsValue.str "leb"), ("constructor", JsValue.str "x")]) =
      Except.ok () :=
  ⟨rfl, rfl⟩

/-- If some key of the options object is neither a schema key nor an
`Object.prototype` property name, the unsupported-key loop fails,
naming the first such key. -/
theorem checkSupportedKeys_fails
    (vfs : List (String × (JsValue → Except String Unit))) (o : OptionsObj)
    (h : ∃ p ∈ o, p.1 ∉ vfs.map Prod.fst ∧ p.1 ∉ objectPrototypeKeys) :
    ∃ k, (∃ v, (k, v) ∈ o) ∧ k ∉ vfs.map Prod.fst ∧
      k ∉ objectPrototypeKeys ∧
      checkSupportedKeys vfs o =
        Except.error ("Option " ++ k ++ " is not supported.") := by
  induction o with
  | nil => simp at h
  | cons p rest ih =>
    obtain ⟨k0, v0⟩ := p
    cases hp : jsHashHit (vfs.map Prod.fst) k0 with
    | false =>
      have hk : k0 ∉ vfs.map Prod.fst ∧ k0 ∉ objectPrototypeKeys := by
        simpa [jsHashHit] using hp
      exact ⟨k0, ⟨v0, List.mem_cons_self _ _⟩, hk.1, hk.2, by
        simp [checkSupportedKeys, hp]⟩
    | true =>
      have h' : ∃ q ∈ rest, q.1 ∉ vfs.map Prod.fst ∧
          q.1 ∉ objectPrototypeKeys := by
        rcases h with ⟨q, hq, hq1, hq2⟩
        rcases List.mem_cons.mp hq with h1 | hmem
        · exfalso
          rw [h1] at hq1 hq2
          rcases (by simpa [jsHashHit] using hp :
              k0 ∈ vfs.map Prod.fst ∨ k0 ∈ objectPrototypeKeys) with hc | hc
          · exact hq1 hc
          · exact hq2 hc
        · exact ⟨q, hmem, hq1, hq2⟩
      rcases ih h' with ⟨k, ⟨v, hv⟩, hk1, hk2, heq⟩
      exact ⟨k, ⟨v, List.mem_cons_of_mem _ hv⟩, hk1, hk2, by
        simp [checkSupportedKeys, hp, heq]⟩

/-- Claim C2 (amended): for every schema, an options object containing a
key that is absent from the schema and is not an `Object.prototype`
property name is rejected with `Option <key> is not supported.` naming
such a key, whatever the other fields hold (keys colliding with
inherited `Object.prototype` properties, such as `constructor` or
`toString`, slip past the unsupported-key check), and a missing options
object is rejected with `Options is required.`. -/
theorem c2_unsupported_key (validators : Schema) (o : OptionsObj)
    (h : ∃ p ∈ o, p.1 ∉ (mkValidateFunctions validators).map Prod.fst ∧
      p.1 ∉ objectPrototypeKeys) :
    (∃ k, (∃ v, (k, v) ∈ o) ∧
      k ∉ (mkValidateFunctions validators).map Prod.fst ∧
      k ∉ objectPrototypeKeys ∧
      createOptionsValidator validators (some o) =
        Except.error ("Option " ++ k ++ " is not supported.")) ∧
    createOptionsValidator validators none =
      Except.error "Options is required." := by
  refine ⟨?_, rfl⟩
  rcases checkSupportedKeys_fails (mkValidateFunctions validators) o h with
    ⟨k, hkv, hk1, hk2, heq⟩
  exact ⟨k, hkv, hk1, hk2, by simp [createOptionsValidator, heq]⟩

/-- Witness for C2: an unsupported key against the `tableOfContents`
schema. -/
theorem c2_witness :
    (∃ k, (∃ v, (k, v) ∈ ([("bogus", JsValue.str "x")] : OptionsObj)) ∧
      k ∉ (mkValidateFunctions specificBibleSchema).map Prod.fst ∧
      k ∉ objectPrototypeKeys ∧
      createOptionsValidator specificBibleSchema
          (some [("bogus", JsValue.str "x")]) =
        Except.error ("Option " ++ k ++ " is not supported.")) ∧
    createOptionsValidator specificBibleSchema none =
      Except.error "Options is required." :=
  c2_unsupported_key specificBibleSchema [("bogus", JsValue.str "x")]
    ⟨("bogus", JsValue.str "x"), by decide, by decide, by decide⟩

/-- If some placeholder's option is `undefined`, the path builder fails,
naming such a placeholder. -/
theorem renderPath_fails (options : OptionsObj) (names parts : List String)
    (h : ∃ n ∈ names, jsGet options n = JsValue.undefined) :
    ∃ n ∈ names, jsGet options n = JsValue.undefined ∧
      renderPath options names parts =
        Except.error ("Parameter " ++ n ++ " is required.") := by
  induction names generalizing parts with
  | nil => simp at h
  | cons n ns ih =>
    by_cases hn : jsGet options n = JsValue.undefined
    · exact ⟨n, List.mem_cons_self n ns, hn, by simp [renderPath, hn]⟩
    · have h' : ∃ m ∈ ns, jsGet options m = JsValue.undefined := by
        rcases h with ⟨m, hm, hu⟩
        rcases List.mem_cons.mp hm with h1 | hmem
        · rw [h1] at hu; exact absurd hu hn
        · exact ⟨m, hmem, hu⟩
      rcases ih parts.tail h' with ⟨m, hm, hu, heq⟩
      exact ⟨m, List.mem_cons_of_mem n hm, hu, by simp [renderPath, hn, heq]⟩

/-- Claim C8: whenever some placeholder name of the template has an
`undefined` option value, `renderUrl` throws
`Parameter <name> is required.` for such a placeholder and returns no
URL. -/
theorem c8_missing_placeholder (urlParts names : List String) (apiKey : String)
    (options : OptionsObj)
    (h : ∃ n ∈ names, jsGet options n = JsValue.undefined) :
    ∃ n ∈ names, jsGet options n = JsValue.undefined ∧
      renderUrl urlParts names apiKey options =
        Except.error ("Parameter " ++ n ++ " is required.") := by
  rcases renderPath_fails options names urlParts.tail h with ⟨n, hn, hu, heq⟩
  exact ⟨n, hn, hu, by simp [renderUrl, heq]⟩

/-- Witness for C8: the `content` template with the `format` option
missing. -/
theorem c8_witness :
    ∃ n ∈ contentNames,
      jsGet [("bible", JsValue.str "leb")] n = JsValue.undefined ∧
      renderUrl contentUrlParts contentNames "baz"
          [("bible", JsValue.str "leb")] =
        Except.error ("Parameter " ++ n ++ " is required.") :=
  c8_missing_placeholder contentUrlParts contentNames "baz"
    [("bible", JsValue.str "leb")] ⟨"format", by decide, by decide⟩

/-- Claim C3: when the fetched response's status is not exactly 200, the
endpoint throws the raw response envelope, the outcome is the same for
every transformer (the transformer is never invoked), and no body
decoding happens. -/
theorem c3_non200_status {TBlob α : Type} (fetch : String → Response TBlob)
    (validateOptions : Option OptionsObj → Except String Unit)
    (renderUrlFn : Option OptionsObj → Except String String)
    (transformResponse : Response TBlob → Except String α × List DecodeMethod)
    (options : Option OptionsObj) (url : String)
    (hv : validateOptions options = Except.ok ())
    (hu : renderUrlFn options = Except.ok url)
    (hs : (fetch url).status ≠ 200) :
    createEndpoint fetch validateOptions renderUrlFn transformResponse options =
      ⟨Except.error (EndpointError.thrownResponse (fetch url)), true, []⟩ ∧
    ∀ t2 : Response TBlob → Except String α × List DecodeMethod,
      createEndpoint fetch validateOptions renderUrlFn t2 options =
        createEndpoint fetch validateOptions renderUrlFn transformResponse
          options := by
  have key : ∀ t : Response TBlob → Except String α × List DecodeMethod,
      createEndpoint fetch validateOptions renderUrlFn t options =
        ⟨Except.error (EndpointError.thrownResponse (fetch url)), true, []⟩ := by
    intro t
    simp [createEndpoint, hv, hu, hs]
  exact ⟨key transformResponse, fun t2 => (key t2).trans (key transformResponse).symm⟩

/-- Witness for C3: a 404 response on the `tableOfContents` endpoint. -/
theorem c3_witness :
    createEndpoint (fun _ => (⟨404, some "application/json", JsValue.null, "", ()⟩ : Response Unit))
        validateSpecificBibleOptions
        (renderUrlOpt tableOfContentsUrlParts tableOfContentsNames "baz")
        expectJsonResult (some [("bible", JsValue.str "leb")]) =
      ⟨Except.error (EndpointError.thrownResponse
        ⟨404, some "application/json", JsValue.null, "", ()⟩), true, []⟩ ∧
    ∀ t2 : Response Unit → Except String JsValue × List DecodeMethod,
      createEndpoint (fun _ => (⟨404, some "application/json", JsValue.null, "", ()⟩ : Response Unit))
          validateSpecificBibleOptions
          (renderUrlOpt tableOfContentsUrlParts tableOfContentsNames "baz")
          t2 (some [("bible", JsValue.str "leb")]) =
        createEndpoint (fun _ => (⟨404, some "application/json", JsValue.null, "", ()⟩ : Response Unit))
          validateSpecificBibleOptions
          (renderUrlOpt tableOfContentsUrlParts tableOfContentsNames "baz")
          expectJsonResult (some [("bible", JsValue.str "leb")]) :=
  c3_non200_status _ validateSpecificBibleOptions
    (renderUrlOpt tableOfContentsUrlParts tableOfContentsNames "baz")
    expectJsonResult (some [("bible", JsValue.str "leb")])
    "https://api.biblia.com/v1/bible/contents/leb?key=baz" rfl rfl (by decide)

/-- Claim C5: when validation fails, the endpoint throws the validation
error, the fetch capability is never invoked, and the outcome is the
same for every fetch capability — no network access precedes successful
validation. -/
theorem c5_validation_gates_fetch {TBlob α : Type}
    (f1 f2 : String → Response TBlob)
    (validateOptions : Option OptionsObj → Except String Unit)
    (renderUrlFn : Option OptionsObj → Except String String)
    (transformResponse : Response TBlob → Except String α × List DecodeMethod)
    (options : Option OptionsObj) (e : String)
    (hv : validateOptions options = Except.error e) :
    createEndpoint f1 validateOptions renderUrlFn transformResponse options =
      ⟨Except.error (EndpointError.thrownMessage e), false, []⟩ ∧
    createEndpoint f1 validateOptions renderUrlFn transformResponse options =
      createEndpoint f2 validateOptions renderUrlFn transformResponse
        options := by
  have key : ∀ f : String → Response TBlob,
      createEndpoint f validateOptions renderUrlFn transformResponse options =
        ⟨Except.error (EndpointError.thrownMessage e), false, []⟩ := by
    intro f
    simp [createEndpoint, hv]
  exact ⟨key f1, (key f1).trans (key f2).symm⟩

/-- Witness for C5: a missing options object on the `tableOfContents`
endpoint with two distinct fetch capabilities. -/
theorem c5_witness :
    createEndpoint (fun _ => (⟨200, some "application/json", JsValue.null, "", ()⟩ : Response Unit))
        validateSpecificBibleOptions
        (renderUrlOpt tableOfContentsUrlParts tableOfContentsNames "baz")
        expectJsonResult none =
      ⟨Except.error (EndpointError.thrownMessage "Options is required."),
        false, []⟩ ∧
    createEndpoint (fun _ => (⟨200, some "application/json", JsValue.null, "", ()⟩ : Response Unit))
        validateSpecificBibleOptions
        (renderUrlOpt tableOfContentsUrlParts tableOfContentsNames "baz")
        expectJsonResult none =
      createEndpoint (fun _ => (⟨500, none, JsValue.null, "", ()⟩ : Response Unit))
        validateSpecificBibleOptions
        (renderUrlOpt tableOfContentsUrlParts tableOfContentsNames "baz")
        expectJsonResult none :=
  c5_validation_gates_fetch _ _ validateSpecificBibleOptions
    (renderUrlOpt tableOfContentsUrlParts tableOfContentsNames "baz")
    expectJsonResult none "Options is required." rfl

/-- `expectContentType` fails, citing the observed media type, when that
media type is not among the expected ones. -/
theorem expectContentType_fails {TBlob : Type} (r : Response TBlob)
    (expectedTypes : List String)
    (h : responseContentType r ∉ expectedTypes) :
    expectContentType r expectedTypes =
      Except.error ("Unexpected response Content-Type: " ++
        responseContentType r) := by
  simp [expectContentType, h]

/-- Claim C4: a response whose media type (the `Content-Type` header up to
any `;`-delimited parameter suffix) is outside a transformer's accepted
set makes that transformer fail with a message carrying the observed
media type, with no body-decoding method invoked; in particular
`image/jpeg` against the JSON transformer fails citing `image/jpeg`. -/
theorem c4_unexpected_content_type {TBlob : Type} (r : Response TBlob) :
    (responseContentType r ∉ ["application/json"] →
      expectJsonResult r =
        (Except.error ("Unexpected response Content-Type: " ++
          responseContentType r), [])) ∧
    (responseContentType r ∉ ["text/html", "text/plain"] →
      expectTextResult r =
        (Except.error ("Unexpected response Content-Type: " ++
          responseContentType r), [])) ∧
    (responseContentType r ∉ ["image/jpeg"] →
      expectImageResult r =
        (Except.error ("Unexpected response Content-Type: " ++
          responseContentType r), [])) ∧
    (responseContentType r = "image/jpeg" →
      expectJsonResult r =
        (Except.error "Unexpected response Content-Type: image/jpeg", [])) := by
  refine ⟨fun h => ?_, fun h => ?_, fun h => ?_, fun h => ?_⟩
  · simp [expectJsonResult, expectContentType_fails r _ h]
  · simp [expectTextResult, expectContentType_fails r _ h]
  · simp [expectImageResult, expectContentType_fails r _ h]
  · have hne : responseContentType r ∉ ["application/json"] := by simp [h]
    calc expectJsonResult r
        = (Except.error ("Unexpected response Content-Type: " ++
            responseContentType r), []) := by
          simp [expectJsonResult, expectContentType_fails r _ hne]
      _ = (Except.error "Unexpected response Content-Type: image/jpeg", []) := by
          rw [h]; rfl

/-- Witness for C4: an `image/jpeg` response handed to the JSON
transformer. -/
theorem c4_witness :
    expectJsonResult (⟨200, some "image/jpeg", JsValue.null, "", ()⟩ : Response Unit) =
      (Except.error "Unexpected response Content-Type: image/jpeg", []) :=
  (c4_unexpected_content_type
      (⟨200, some "image/jpeg", JsValue.null, "", ()⟩ : Response Unit)).2.2.2
    (by decide)

/-- Claim C9: a response accepted by a transformer has exactly one
body-decoding method invoked on it (`json`, `text` or `blob`
respectively), and no transformer ever invokes more than one decoding
method. -/
theorem c9_single_decode {TBlob : Type} (r : Response TBlob) :
    ((∀ v : JsValue, (expectJsonResult r).1 = Except.ok v →
        (expectJsonResult r).2 = [DecodeMethod.json]) ∧
      (expectJsonResult r).2.length ≤ 1) ∧
    ((∀ s : String, (expectTextResult r).1 = Except.ok s →
        (expectTextResult r).2 = [DecodeMethod.text]) ∧
      (expectTextResult r).2.length ≤ 1) ∧
    ((∀ b : TBlob, (expectImageResult r).1 = Except.ok b →
        (expectImageResult r).2 = [DecodeMethod.blob]) ∧
      (expectImageResult r).2.length ≤ 1) := by
  refine ⟨⟨fun v hv => ?_, ?_⟩, ⟨fun s hs => ?_, ?_⟩, ⟨fun b hb => ?_, ?_⟩⟩
  · cases hc : expectContentType r ["application/json"] with
    | error e => simp [expectJsonResult, hc] at hv
    | ok u => simp [expectJsonResult, hc]
  · cases hc : expectContentType r ["application/json"] with
    | error e => simp [expectJsonResult, hc]
    | ok u => simp [expectJsonResult, hc]
  · cases hc : expectContentType r ["text/html", "text/plain"] with
    | error e => simp [expectTextResult, hc] at hs
    | ok u => simp [expectTextResult, hc]
  · cases hc : expectContentType r ["text/html", "text/plain"] with
    | error e => simp [expectTextResult, hc]
    | ok u => simp [expectTextResult, hc]
  · cases hc : expectContentType r ["image/jpeg"] with
    | error e => simp [expectImageResult, hc] at hb
    | ok u => simp [expectImageResult, hc]
  · cases hc : expectContentType r ["image/jpeg"] with
    | error e => simp [expectImageResult, hc]
    | ok u => simp [expectImageResult, hc]

/-- Witness for C9: an accepted JSON response decodes through `json()`
exactly once. -/
theorem c9_witness :
    (expectJsonResult (⟨200, some "application/json", JsValue.null, "", ()⟩ :
        Response Unit)).2 = [DecodeMethod.json] :=
  (c9_single_decode (⟨200, some "application/json", JsValue.null, "", ()⟩ :
      Response Unit)).1.1 JsValue.null rfl

/-- Claim C6: enum membership is case-insensitive on strings (a string
whose lower-cased form agrees with that of some allowed value passes),
every non-string value fails, and every failure carries the message
listing the allowed values verbatim in declaration order. -/
theorem c6_enum_rules (values : List String) (optionName : String) :
    (∀ s : String, (∃ m ∈ values, toLowerStr s = toLowerStr m) →
      validateEnumMembership values optionName (JsValue.str s) =
        Except.ok ()) ∧
    (∀ v : JsValue, typeofJs v ≠ "string" →
      validateEnumMembership values optionName v =
        Except.error ("Option " ++ optionName ++ " must be one of " ++
          String.intercalate ", " values ++ ".")) ∧
    (∀ (v : JsValue) (e : String),
      validateEnumMembership values optionName v = Except.error e →
      e = "Option " ++ optionName ++ " must be one of " ++
        String.intercalate ", " values ++ ".") := by
  refine ⟨?_, ?_, ?_⟩
  · rintro s ⟨m, hm, heq⟩
    have hmem : toLowerStr s ∈ values.map toLowerStr := by
      rw [heq]
      exact List.mem_map_of_mem toLowerStr hm
    have hhit : jsHashHit (values.map toLowerStr) (toLowerStr s) = true := by
      simp [jsHashHit, hmem]
    simp [validateEnumMembership, hhit]
  · intro v hv
    cases v <;> simp_all [validateEnumMembership, typeofJs, enumErrorMessage]
  · intro v e he
    cases v with
    | str s =>
      rw [validateEnumMembership] at he
      split at he
      · cases he
      · injection he with h1
        rw [← h1]; rfl
    | num n => injection he with h1; rw [← h1]; rfl
    | bool b => injection he with h1; rw [← h1]; rfl
    | null => injection he with h1; rw [← h1]; rfl
    | undefined => injection he with h1; rw [← h1]; rfl

/-- Witness for C6: `VERSE` passes the `mode` enum case-insensitively and
a number fails with the enum message. -/
theorem c6_witness :
    validateEnumMembership ["verse", "fuzzy"] "mode" (JsValue.str "VERSE") =
      Except.ok () ∧
    validateEnumMembership ["verse", "fuzzy"] "mode" (JsValue.num 3) =
      Except.error ("Option " ++ "mode" ++ " must be one of " ++
        String.intercalate ", " ["verse", "fuzzy"] ++ ".") :=
  ⟨(c6_enum_rules ["verse", "fuzzy"] "mode").1 "VERSE"
      ⟨"verse", by decide, by decide⟩,
   (c6_enum_rules ["verse", "fuzzy"] "mode").2.1 (JsValue.num 3) (by decide)⟩

/-- Counterexample for C7: the claim says `!` (among `! * ( )` and the
apostrophe) is percent-encoded, but `encodeURIComponent` leaves it
unchanged — visible in a rendered URL. -/
theorem c7_counterexample :
    encodeURIComponent "!" = "!" ∧
    encodeURIComponent "!" ≠ "%21" ∧
    renderUrl tagUrlParts tagNames "baz" [("text", JsValue.str "(!)")] =
      Except.ok "https://api.biblia.com/v1/bible/tag?text=(!)&key=baz" :=
  ⟨rfl, by decide, rfl⟩

/-- Claim C7 (amended): the characters `: ? # [ ] @ $ & + , ; = / %` and
space are percent-encoded, while letters, digits and
`- _ . ~ ! * ( )` and the apostrophe pass through unchanged, matching
ECMA-262 `encodeURIComponent` (which, unlike RFC 3986 component
encoding, leaves `! * ' ( )` unescaped). -/
theorem c7_amended_encoding :
    (∀ c ∈ [':', '?', '#', '[', ']', '@', '$', '&', '+', ',', ';', '=', '/',
        '%', ' '],
      encodeURIComponent (String.singleton c) = percentByte c.toNat) ∧
    (∀ c : Char,
      (c.isAlpha || c.isDigit ||
        ['-', '_', '.', '!', '~', '*', Char.ofNat 39, '(', ')'].contains c) =
          true →
      encodeURIComponent (String.singleton c) = String.singleton c) := by
  constructor
  · decide
  · intro c h
    have hu : isUriUnescapedChar c = true := h
    show String.join ([c].map encodeChar) = String.singleton c
    simp [encodeChar, hu, String.join]

/-- Witness for C7 (amended): the colon is escaped and a letter passes
through. -/
theorem c7_amended_witness :
    encodeURIComponent (String.singleton ':') = percentByte (Char.toNat ':') ∧
    encodeURIComponent (String.singleton 'a') = String.singleton 'a' :=
  ⟨c7_amended_encoding.1 ':' (by decide), c7_amended_encoding.2 'a' (by decide)⟩

/-- Claim C10: only the exact value `undefined` counts as absence for an
optional rule — every other value, `null` included, is delegated to the
required rule; in particular `null` against an optional string rule
fails with the string-type message. -/
theorem c10_optional_only_undefined (fn : RuleFactory) (optionName : String)
    (v : JsValue) (h : v ≠ JsValue.undefined) :
    optionalRule fn optionName v = fn optionName v ∧
    optionalRule fn optionName JsValue.undefined = Except.ok () ∧
    optionalRule validateIsString optionName JsValue.null =
      Except.error ("Option " ++ optionName ++ " must be a string.") :=
  ⟨by simp [optionalRule, h], rfl, rfl⟩

/-- Witness for C10: a number under an optional string rule delegates to
the required rule. -/
theorem c10_witness :
    optionalRule validateIsString "header" (JsValue.num 5) =
      validateIsString "header" (JsValue.num 5) ∧
    optionalRule validateIsString "header" JsValue.undefined = Except.ok () ∧
    optionalRule validateIsString "header" JsValue.null =
      Except.error ("Option " ++ "header" ++ " must be a string.") :=
  c10_optional_only_undefined validateIsString "header" (JsValue.num 5)
    (by decide)

end BibliaApi
